import Mathlib

/-!
Verification of the EyeCare timer / exercise core.

Shallow embedding of:
* `src/stores/timerStore.ts`   — the phase clock (zustand store actions);
* `src/hooks/useTimerEngine.ts` — the RAF tick loop with drift compensation;
* `src/stores/exerciseStore.ts` — the activity (exercise) state machine;
* `src/config/exerciseConfig.ts` — selection / storage configuration;
* `src/utils/eventEmitter.ts`  — the event fan-out;
* `src/hooks/useExerciseOrchestrator.ts` — clock/activity binding.

Time instants (performance.now() / Date.now() values, milliseconds) are
modelled as rationals; elapsed seconds are rationals.  Host timestamps are
passed to each action as explicit parameters.  setTimeout-scheduled
callbacks are modelled as separate functions applied to whatever state is
current when they fire.
-/

namespace EyeCare

/-- TimerMode from `src/types/index.ts`. -/
inductive TimerMode
  | IDLE
  | WORKING
  | BREAK_REMINDER
  | PAUSED
deriving DecidableEq

/-- The `currentPhase` values 'work' / 'break' (the TS union type). -/
inductive Phase
  | work
  | brk
deriving DecidableEq

/-- The state fields of the timer store (`TimerState` in `src/types/index.ts`):
legacy fields `duration`, `isRunning`, `startTime` plus the state-machine
fields. -/
structure TimerState where
  duration : ℚ
  isRunning : Bool
  startTime : Option ℚ
  timerMode : TimerMode
  elapsedTime : ℚ
  sessionCount : ℕ
  currentPhase : Option Phase
  startTimestamp : Option ℚ
deriving DecidableEq

/-- WORK_DURATION = 1200 seconds (both in timerStore.ts and useTimerEngine.ts). -/
def WORK_DURATION : ℚ := 1200

/-- BREAK_DURATION = 20 seconds (timerStore.ts). -/
def BREAK_DURATION : ℚ := 20

/-- UPDATE_INTERVAL = 100 ms (useTimerEngine.ts). -/
def UPDATE_INTERVAL : ℚ := 100

/-- The store's initial state (timerStore.ts, `create` initialisers). -/
def initialTimerState : TimerState :=
  { duration := WORK_DURATION
    isRunning := false
    startTime := none
    timerMode := .IDLE
    elapsedTime := 0
    sessionCount := 0
    currentPhase := none
    startTimestamp := none }

/-- Legacy `start` action; `now` is performance.now(), `dateNow` is Date.now(). -/
def start (now dateNow : ℚ) (s : TimerState) : TimerState :=
  { s with timerMode := .WORKING, isRunning := true, currentPhase := some .work,
           elapsedTime := 0, startTimestamp := some now, startTime := some dateNow }

/-- Legacy `pause` action: sets PAUSED and stops running, keeps `elapsedTime`. -/
def pause (s : TimerState) : TimerState :=
  { s with timerMode := .PAUSED, isRunning := false, elapsedTime := s.elapsedTime }

/-- Legacy `reset` action. -/
def reset (s : TimerState) : TimerState :=
  { s with timerMode := .IDLE, isRunning := false, currentPhase := none,
           elapsedTime := 0, startTimestamp := none, startTime := none }

/-- `startWork` action. -/
def startWork (now dateNow : ℚ) (s : TimerState) : TimerState :=
  { s with timerMode := .WORKING, isRunning := true, currentPhase := some .work,
           elapsedTime := 0, startTimestamp := some now, startTime := some dateNow }

/-- `startBreak` action. -/
def startBreak (now : ℚ) (s : TimerState) : TimerState :=
  { s with timerMode := .BREAK_REMINDER, isRunning := true, currentPhase := some .brk,
           elapsedTime := 0, startTimestamp := some now }

/-- `pauseTimer` action: preserves elapsed time when pausing. -/
def pauseTimer (s : TimerState) : TimerState :=
  { s with timerMode := .PAUSED, isRunning := false, elapsedTime := s.elapsedTime }

/-- `resumeTimer` action: restores the mode from `currentPhase` and re-anchors
the RAF timestamp. -/
def resumeTimer (now : ℚ) (s : TimerState) : TimerState :=
  { s with timerMode := if s.currentPhase = some .work then .WORKING else .BREAK_REMINDER,
           isRunning := true, startTimestamp := some now }

/-- `resetTimer` action. -/
def resetTimer (s : TimerState) : TimerState :=
  { s with timerMode := .IDLE, isRunning := false, currentPhase := none,
           elapsedTime := 0, startTimestamp := none, startTime := none }

/-- `incrementSession` action. -/
def incrementSession (s : TimerState) : TimerState :=
  { s with sessionCount := s.sessionCount + 1 }

/-- `updateElapsedTime` action. -/
def updateElapsedTime (elapsed : ℚ) (s : TimerState) : TimerState :=
  { s with elapsedTime := elapsed }

/-- `transitionToBreak` action: only transitions if currently WORKING. -/
def transitionToBreak (now : ℚ) (s : TimerState) : TimerState :=
  if s.timerMode = .WORKING then
    { s with timerMode := .BREAK_REMINDER, currentPhase := some .brk,
             elapsedTime := 0, startTimestamp := some now }
  else s

/-- `transitionToIdle` action: increments the session count when completing a
break (mode BREAK_REMINDER), otherwise just returns to idle. -/
def transitionToIdle (s : TimerState) : TimerState :=
  if s.timerMode = .BREAK_REMINDER then
    { s with timerMode := .IDLE, isRunning := false, currentPhase := none,
             elapsedTime := 0, startTimestamp := none,
             sessionCount := s.sessionCount + 1 }
  else
    { s with timerMode := .IDLE, isRunning := false, currentPhase := none,
             elapsedTime := 0, startTimestamp := none }

/-- ExerciseType from `src/types/exercise.ts`. -/
inductive ExerciseType
  | BALL_TRACKING
  | NEAR_FAR_FOCUS
  | BLINK_EXERCISE
deriving DecidableEq

/-- TimerEventType from `src/types/events.ts` (the five semantic events). -/
inductive TimerEventType
  | WORK_START
  | WORK_COMPLETE
  | BREAK_START
  | BREAK_COMPLETE
  | EXERCISE_COMPLETE
deriving DecidableEq

/-- A timer event: type plus payload fields
`{timestamp, duration, sessionId, phase, metadata?}`. -/
structure TimerEvent where
  type : TimerEventType
  timestamp : ℚ
  duration : ℚ
  sessionId : ℕ
  phase : String
  metadata : Option ExerciseType
deriving DecidableEq

/-- The engine-side mutable refs of `useTimerEngine` together with the store:
`lastUpdateRef`, `accumulatedTimeRef`, the events emitted so far, and
whether the RAF loop has stopped re-scheduling itself. -/
structure EngineState where
  store : TimerState
  lastUpdate : ℚ
  accumulated : ℚ
  events : List TimerEvent
  stopped : Bool
deriving DecidableEq

/-- One pass of the RAF callback `updateTimer` in useTimerEngine.ts, lines
46–118, called at performance.now() = `now` with Date.now() = `dateNow`.
If less than UPDATE_INTERVAL has passed since the last anchor nothing
changes; otherwise the measured delta is accumulated (drift compensation),
the store elapsed time is updated, and phase boundaries are processed. -/
def updateTimer (now dateNow : ℚ) (e : EngineState) : EngineState :=
  let delta := now - e.lastUpdate
  if UPDATE_INTERVAL ≤ delta then
    let acc := e.accumulated + delta / 1000
    let store := updateElapsedTime acc e.store
    let maxDuration := if store.currentPhase = some .work then WORK_DURATION else BREAK_DURATION
    if maxDuration ≤ acc then
      if store.timerMode = .WORKING then
        { store := transitionToBreak now store
          lastUpdate := now
          accumulated := 0
          events := e.events ++
            [⟨.WORK_COMPLETE, dateNow, WORK_DURATION, store.sessionCount, "work", none⟩,
             ⟨.BREAK_START, dateNow, BREAK_DURATION, store.sessionCount, "break", none⟩]
          stopped := false }
      else if store.timerMode = .BREAK_REMINDER then
        -- the callback returns before re-anchoring lastUpdate and before
        -- scheduling another frame
        { store := transitionToIdle store
          lastUpdate := e.lastUpdate
          accumulated := acc
          events := e.events ++
            [⟨.BREAK_COMPLETE, dateNow, BREAK_DURATION, store.sessionCount + 1, "break", none⟩]
          stopped := true }
      else
        { store := store, lastUpdate := now, accumulated := acc,
          events := e.events, stopped := false }
    else
      { store := store, lastUpdate := now, accumulated := acc,
        events := e.events, stopped := false }
  else e

/-- A tick attempt: the RAF callback only exists while the effect is active
(`isRunning && startTimestamp`, useTimerEngine.ts lines 31–39) and while the
loop has not stopped re-scheduling itself. -/
def tick (now dateNow : ℚ) (e : EngineState) : EngineState :=
  if e.stopped then e
  else if e.store.isRunning ∧ e.store.startTimestamp ≠ none then updateTimer now dateNow e
  else e

/-- Effect initialisation (useTimerEngine.ts lines 42–43):
`lastUpdateRef.current = performance.now(); accumulatedTimeRef.current = elapsedTime`. -/
def engineInit (now : ℚ) (s : TimerState) : EngineState :=
  { store := s, lastUpdate := now, accumulated := s.elapsedTime,
    events := [], stopped := false }

/-- Processing a sequence of RAF callbacks at the given instants. -/
def runTicks (ts : List ℚ) (e : EngineState) : EngineState :=
  ts.foldl (fun acc t => tick t t acc) e

/-- `getRemainingTime` (useTimerEngine.ts lines 156–160): remaining seconds,
clamped at 0 and rounded up. -/
def getRemainingTime (s : TimerState) : ℤ :=
  let maxDuration := if s.currentPhase = some .work then WORK_DURATION else BREAK_DURATION
  ⌈max 0 (maxDuration - s.elapsedTime)⌉

/-- ExerciseState from `src/types/exercise.ts`. -/
inductive ExerciseState
  | IDLE
  | LAUNCHING
  | RUNNING
  | PAUSED
  | COMPLETING
  | COMPLETED
deriving DecidableEq

/-- SelectionState from `src/types/exercise.ts`. -/
inductive SelectionState
  | RANDOMIZING
  | MANUAL_OVERRIDE
  | SELECTED
deriving DecidableEq

/-- ExerciseCompletion record (`src/types/exercise.ts`); the stored duration
is Math.round of the elapsed seconds, hence an integer. -/
structure ExerciseCompletion where
  exerciseType : ExerciseType
  completionTimestamp : ℚ
  duration : ℤ
  sessionId : ℕ
deriving DecidableEq

/-- ExercisePreferences (`src/types/exercise.ts`). -/
structure ExercisePreferences where
  preferredExercise : Option ExerciseType
  autoLaunch : Bool
  reducedMotion : Bool
  enableManualSelection : Bool
deriving DecidableEq

/-- DEFAULT_EXERCISE_PREFERENCES (`src/config/exerciseConfig.ts`). -/
def DEFAULT_EXERCISE_PREFERENCES : ExercisePreferences :=
  { preferredExercise := none, autoLaunch := true,
    reducedMotion := false, enableManualSelection := true }

/-- SELECTION_CONFIG.manualSelectionWindowDuration = 3000 ms. -/
def manualSelectionWindowDuration : ℚ := 3000

/-- SELECTION_CONFIG.historySize = 2 (recency-exclusion window for random
selection). -/
def SELECTION_CONFIG_historySize : ℕ := 2

/-- STORAGE_CONFIG.maxCompletions = 100. -/
def maxCompletions : ℕ := 100

/-- STORAGE_CONFIG.maxHistorySize = 50 (the bound applied by `updateHistory`). -/
def maxHistorySize : ℕ := 50

/-- JS `list.slice(-n)` for n > 0: the last `min n list.length` elements. -/
def sliceLast {α : Type} (n : ℕ) (l : List α) : List α :=
  l.drop (l.length - n)

/-- `getAvailableExercises` (`src/config/exerciseConfig.ts`):
Object.values(ExerciseType) in declaration order. -/
def getAvailableExercises : List ExerciseType :=
  [.BALL_TRACKING, .NEAR_FAR_FOCUS, .BLINK_EXERCISE]

/-- `selectRandomExercise` from `src/config/exerciseConfig.ts`: filter the
last `historySize` history entries out of the pool, falling back to the full
pool when the exclusion empties it; `r` models the random draw
Math.floor(Math.random() * pool.length) as `r % pool.length`. -/
def selectRandomExerciseFrom (history : List ExerciseType) (r : ℕ) : ExerciseType :=
  let allExercises := getAvailableExercises
  let recentHistory := sliceLast SELECTION_CONFIG_historySize history
  let availableExercises := allExercises.filter (fun e => ¬ recentHistory.contains e)
  let selectionPool := if availableExercises.length > 0 then availableExercises else allExercises
  selectionPool.getD (r % selectionPool.length) .BALL_TRACKING

/-- The state fields of the exercise store (`ExerciseStoreState`). -/
structure ExerciseStoreState where
  currentExercise : Option ExerciseType
  exerciseState : ExerciseState
  selectionState : SelectionState
  history : List ExerciseType
  completions : List ExerciseCompletion
  preferences : ExercisePreferences
  manualSelectionEndTime : Option ℚ
deriving DecidableEq

/-- The exercise store's initial state (exerciseStore.ts lines 30–37). -/
def initialExerciseState : ExerciseStoreState :=
  { currentExercise := none, exerciseState := .IDLE,
    selectionState := .RANDOMIZING, history := [], completions := [],
    preferences := DEFAULT_EXERCISE_PREFERENCES, manualSelectionEndTime := none }

/-- `selectExercise` action (exerciseStore.ts lines 40–47). -/
def selectExercise (exerciseType : Option ExerciseType) (s : ExerciseStoreState) :
    ExerciseStoreState :=
  { s with currentExercise := exerciseType,
           selectionState := if exerciseType.isSome then .SELECTED else .RANDOMIZING }

/-- `selectRandomExercise` store action (exerciseStore.ts lines 49–67). -/
def selectRandomExerciseAction (r : ℕ) (s : ExerciseStoreState) : ExerciseStoreState :=
  match s.preferences.preferredExercise with
  | some p => { s with currentExercise := some p, selectionState := .SELECTED }
  | none =>
    { s with currentExercise := some (selectRandomExerciseFrom s.history r),
             selectionState := .SELECTED }

/-- `launchExercise` action (exerciseStore.ts lines 70–83): the synchronous
part; the 300 ms setTimeout body is `launchDelayCallback`. -/
def launchExercise (exerciseType : ExerciseType) (s : ExerciseStoreState) :
    ExerciseStoreState :=
  { s with currentExercise := some exerciseType, exerciseState := .LAUNCHING,
           selectionState := .SELECTED }

/-- The launch-delay setTimeout body: only moves LAUNCHING to RUNNING. -/
def launchDelayCallback (s : ExerciseStoreState) : ExerciseStoreState :=
  if s.exerciseState = .LAUNCHING then { s with exerciseState := .RUNNING } else s

/-- `pauseExercise` action: guarded, only from RUNNING. -/
def pauseExercise (s : ExerciseStoreState) : ExerciseStoreState :=
  if s.exerciseState = .RUNNING then { s with exerciseState := .PAUSED } else s

/-- `resumeExercise` action: guarded, only from PAUSED. -/
def resumeExercise (s : ExerciseStoreState) : ExerciseStoreState :=
  if s.exerciseState = .PAUSED then { s with exerciseState := .RUNNING } else s

/-- `updateHistory` action (exerciseStore.ts lines 139–146): append and keep
the last STORAGE_CONFIG.maxHistorySize entries. -/
def updateHistory (exerciseType : ExerciseType) (s : ExerciseStoreState) :
    ExerciseStoreState :=
  { s with history := sliceLast maxHistorySize (s.history ++ [exerciseType]) }

/-- `trackCompletion` action (exerciseStore.ts lines 130–137). -/
def trackCompletion (completion : ExerciseCompletion) (s : ExerciseStoreState) :
    ExerciseStoreState :=
  { s with completions := sliceLast maxCompletions (s.completions ++ [completion]) }

/-- `completeExercise` action (exerciseStore.ts lines 103–118): synchronous
part sets COMPLETING; it captures `currentExercise` at call time for the
500 ms setTimeout body, returned as the second component. -/
def completeExercise (s : ExerciseStoreState) :
    ExerciseStoreState × Option ExerciseType :=
  ({ s with exerciseState := .COMPLETING }, s.currentExercise)

/-- The completion-delay setTimeout body: unconditionally sets COMPLETED and,
when an exercise was captured, appends it to the history. -/
def completeDelayCallback (captured : Option ExerciseType) (s : ExerciseStoreState) :
    ExerciseStoreState :=
  let s1 := { s with exerciseState := .COMPLETED }
  match captured with
  | some k => updateHistory k s1
  | none => s1

/-- `resetExercise` action (exerciseStore.ts lines 120–127); it does not
cancel any pending setTimeout. -/
def resetExercise (s : ExerciseStoreState) : ExerciseStoreState :=
  { s with currentExercise := none, exerciseState := .IDLE,
           selectionState := .RANDOMIZING, manualSelectionEndTime := none }

/-- `disableManualSelectionWindow` action. -/
def disableManualSelectionWindow (s : ExerciseStoreState) : ExerciseStoreState :=
  { s with manualSelectionEndTime := none, selectionState := .SELECTED }

/-- `enableManualSelectionWindow` action (exerciseStore.ts lines 159–182):
synchronous part; the window-expiry setTimeout body is
`manualWindowExpiryCallback` with `endTime = now + 3000`. -/
def enableManualSelectionWindow (now : ℚ) (s : ExerciseStoreState) : ExerciseStoreState :=
  { s with manualSelectionEndTime := some (now + manualSelectionWindowDuration),
           selectionState := .MANUAL_OVERRIDE }

/-- The window-expiry setTimeout body: if this window is still the active
manual-override one, commit a random pick when nothing was selected and close
the window; otherwise do nothing. -/
def manualWindowExpiryCallback (endTime : ℚ) (r : ℕ) (s : ExerciseStoreState) :
    ExerciseStoreState :=
  if s.manualSelectionEndTime = some endTime ∧ s.selectionState = .MANUAL_OVERRIDE then
    let s1 := if s.currentExercise = none then selectRandomExerciseAction r s else s
    disableManualSelectionWindow s1
  else s

/-- `exerciseSelectors.isExerciseActive`. -/
def isExerciseActive (s : ExerciseStoreState) : Bool :=
  s.exerciseState = .RUNNING ∨ s.exerciseState = .PAUSED ∨ s.exerciseState = .LAUNCHING

/-- The orchestrator-held context around the exercise store:
`exerciseStartTime` ref and the events it has emitted. -/
structure OrchState where
  store : ExerciseStoreState
  exerciseStartTime : Option ℚ
  events : List TimerEvent
deriving DecidableEq

/-- `handleExerciseComplete` (useExerciseOrchestrator, lines 77–105): when an
exercise and a start time are present, track the completion, emit
EXERCISE_COMPLETE and clear the start time; otherwise do nothing. -/
def handleExerciseComplete (dateNow : ℚ) (sessionCount : ℕ) (o : OrchState) : OrchState :=
  match o.store.currentExercise, o.exerciseStartTime with
  | some k, some st =>
    let dur : ℤ := round ((dateNow - st) / 1000)
    { store := trackCompletion ⟨k, dateNow, dur, sessionCount⟩ o.store
      exerciseStartTime := none
      events := o.events ++
        [⟨.EXERCISE_COMPLETE, dateNow, (dur : ℚ), sessionCount, "exercise", some k⟩] }
  | _, _ => o

/-- A subscriber's behaviour when invoked: it either returns normally or
throws (with a message).  Listeners are identified by a number; the JS `Set`
of function references used by the emitter is modelled as an
insertion-ordered duplicate-free list of identifiers. -/
def Subscriber : Type := TimerEvent → Except String Unit

/-- The EventEmitter's `listeners` map (`src/utils/eventEmitter.ts`): a JS
Map whose absent keys behave like empty sets for emit and
getListenerCount. -/
structure EventEmitter where
  listeners : TimerEventType → List ℕ

/-- `subscribe` (eventEmitter.ts lines 18–32): Set.add — appends the listener
unless it is already registered for that type. -/
def subscribe (eventType : TimerEventType) (id : ℕ) (em : EventEmitter) : EventEmitter :=
  { listeners := fun t =>
      if t = eventType then
        if (em.listeners eventType).contains id then em.listeners eventType
        else em.listeners eventType ++ [id]
      else em.listeners t }

/-- `unsubscribe` (eventEmitter.ts lines 37–42): Set.delete. -/
def unsubscribe (eventType : TimerEventType) (id : ℕ) (em : EventEmitter) : EventEmitter :=
  { listeners := fun t =>
      if t = eventType then (em.listeners eventType).erase id
      else em.listeners t }

/-- `getListenerCount` (eventEmitter.ts lines 74–76). -/
def getListenerCount (eventType : TimerEventType) (em : EventEmitter) : ℕ :=
  (em.listeners eventType).length

/-- The try/catch around one listener call inside `emit`: a throw is caught
and logged (the logged message), never propagated. -/
def invokeCaught (sub : Subscriber) (ev : TimerEvent) : Option String :=
  match sub ev with
  | .ok _ => none
  | .error msg => some msg

/-- The forEach loop of `emit` (eventEmitter.ts lines 47–58) over a listener
list, given each listener's behaviour: every listener is invoked in order and
its outcome recorded; a throwing listener never interrupts the loop. -/
def emitRun (ls : List ℕ) (behavior : ℕ → Subscriber) (ev : TimerEvent) :
    List (ℕ × Option String) :=
  match ls with
  | [] => []
  | id :: rest => (id, invokeCaught (behavior id) ev) :: emitRun rest behavior ev

/-- `emit` on an emitter: notify the listeners registered for the event's
type. -/
def emit (em : EventEmitter) (behavior : ℕ → Subscriber) (ev : TimerEvent) :
    List (ℕ × Option String) :=
  emitRun (em.listeners ev.type) behavior ev

/-- One engine tick followed by fan-out of the newly produced events, as in
useTimerEngine.ts: the store transition is committed by `tick` before `emit`
fans the events out to subscribers. -/
def tickWithFanout (now dateNow : ℚ) (e : EngineState) (em : EventEmitter)
    (behavior : ℕ → Subscriber) : EngineState × List (List (ℕ × Option String)) :=
  let e2 := tick now dateNow e
  (e2, (e2.events.drop e.events.length).map (emit em behavior))

/-- A subscriber that always throws. -/
def throwingSub : Subscriber := fun _ => .error "fail"

/-- A subscriber that always returns normally. -/
def okSub : Subscriber := fun _ => .ok ()

/-- A behaviour map under which listener 1 throws and all others succeed. -/
def sampleBehavior : ℕ → Subscriber := fun i => if i = 1 then throwingSub else okSub

/-- A sample WORK_COMPLETE event. -/
def sampleEvent : TimerEvent := ⟨.WORK_COMPLETE, 0, 1200, 0, "work", none⟩

/-- An emitter with no registered listeners. -/
def emptyEmitter : EventEmitter := ⟨fun _ => []⟩

/- ### General helper lemmas -/

lemma sliceLast_eq_reverse {α : Type} (n : ℕ) (l : List α) :
    sliceLast n l = (l.reverse.take n).reverse := by
  rw [show sliceLast n l = l.rtake n from rfl]
  exact List.rtake_eq_reverse_take_reverse l n

lemma take_append_take {α : Type} (n : ℕ) (u v : List α) :
    (u ++ v.take n).take n = (u ++ v).take n := by
  rw [List.take_append_eq_append_take, List.take_append_eq_append_take, List.take_take,
    Nat.min_eq_left (Nat.sub_le n u.length)]

lemma sliceLast_absorb {α : Type} (n : ℕ) (xs ys : List α) :
    sliceLast n (sliceLast n xs ++ ys) = sliceLast n (xs ++ ys) := by
  rw [sliceLast_eq_reverse, sliceLast_eq_reverse, sliceLast_eq_reverse,
    List.reverse_append, List.reverse_reverse, List.reverse_append, take_append_take]

lemma sliceLast_of_length_le {α : Type} {n : ℕ} {l : List α} (h : l.length ≤ n) :
    sliceLast n l = l := by
  simp [sliceLast, Nat.sub_eq_zero_of_le h]

lemma length_sliceLast {α : Type} (n : ℕ) (l : List α) :
    (sliceLast n l).length = l.length - (l.length - n) := by
  simp [sliceLast]

lemma chain_le_of_le {a b : ℚ} {l : List ℚ} (h : a ≤ b)
    (hc : List.Chain (· ≤ ·) b l) : List.Chain (· ≤ ·) a l := by
  cases hc with
  | nil => exact List.Chain.nil
  | cons hd tl => exact List.Chain.cons (le_trans h hd) tl

/- ### Engine unfolding lemmas -/

lemma tick_run {now dateNow : ℚ} {e : EngineState} (h1 : e.stopped = false)
    (h2 : e.store.isRunning = true) (h3 : e.store.startTimestamp ≠ none) :
    tick now dateNow e = updateTimer now dateNow e := by
  simp [tick, h1, h2, h3]

lemma tick_of_not_running {now dateNow : ℚ} {e : EngineState}
    (h : e.store.isRunning = false) : tick now dateNow e = e := by
  simp [tick, h]

lemma runTicks_of_not_running {ts : List ℚ} {e : EngineState}
    (h : e.store.isRunning = false) : runTicks ts e = e := by
  induction ts with
  | nil => rfl
  | cons t ts ih =>
    show runTicks ts (tick t t e) = e
    rw [tick_of_not_running h, ih]

lemma updateTimer_small {now dateNow : ℚ} {e : EngineState}
    (h : ¬ UPDATE_INTERVAL ≤ now - e.lastUpdate) :
    updateTimer now dateNow e = e := by
  simp only [updateTimer]
  rw [if_neg h]

lemma updateTimer_noboundary {now dateNow : ℚ} {e : EngineState}
    (hd : UPDATE_INTERVAL ≤ now - e.lastUpdate)
    (hphase : e.store.currentPhase = some .work)
    (hlt : e.accumulated + (now - e.lastUpdate) / 1000 < WORK_DURATION) :
    updateTimer now dateNow e =
      { store := updateElapsedTime (e.accumulated + (now - e.lastUpdate) / 1000) e.store
        lastUpdate := now
        accumulated := e.accumulated + (now - e.lastUpdate) / 1000
        events := e.events
        stopped := false } := by
  simp only [updateTimer, updateElapsedTime]
  rw [if_pos hd]
  simp only [hphase, eq_self_iff_true, if_true]
  rw [if_neg (not_le.mpr hlt)]

lemma updateTimer_work_boundary {now dateNow : ℚ} {e : EngineState}
    (hd : UPDATE_INTERVAL ≤ now - e.lastUpdate)
    (hmode : e.store.timerMode = .WORKING)
    (hphase : e.store.currentPhase = some .work)
    (hge : WORK_DURATION ≤ e.accumulated + (now - e.lastUpdate) / 1000) :
    updateTimer now dateNow e =
      { store := transitionToBreak now
          (updateElapsedTime (e.accumulated + (now - e.lastUpdate) / 1000) e.store)
        lastUpdate := now
        accumulated := 0
        events := e.events ++
          [⟨.WORK_COMPLETE, dateNow, WORK_DURATION, e.store.sessionCount, "work", none⟩,
           ⟨.BREAK_START, dateNow, BREAK_DURATION, e.store.sessionCount, "break", none⟩]
        stopped := false } := by
  simp only [updateTimer, updateElapsedTime]
  rw [if_pos hd]
  simp only [hphase, hmode, eq_self_iff_true, if_true]
  rw [if_pos hge]

lemma updateTimer_break_boundary {now dateNow : ℚ} {e : EngineState}
    (hd : UPDATE_INTERVAL ≤ now - e.lastUpdate)
    (hmode : e.store.timerMode = .BREAK_REMINDER)
    (hphase : e.store.currentPhase = some .brk)
    (hge : BREAK_DURATION ≤ e.accumulated + (now - e.lastUpdate) / 1000) :
    updateTimer now dateNow e =
      { store := transitionToIdle
          (updateElapsedTime (e.accumulated + (now - e.lastUpdate) / 1000) e.store)
        lastUpdate := e.lastUpdate
        accumulated := e.accumulated + (now - e.lastUpdate) / 1000
        events := e.events ++
          [⟨.BREAK_COMPLETE, dateNow, BREAK_DURATION, e.store.sessionCount + 1, "break", none⟩]
        stopped := true } := by
  simp only [updateTimer, updateElapsedTime]
  rw [if_pos hd]
  simp only [hphase, hmode, eq_self_iff_true, if_true]
  have hne : (TimerMode.BREAK_REMINDER = TimerMode.WORKING) = False := by simp
  simp only [hne, if_false, reduceCtorEq]
  rw [if_pos ?hc]
  case hc =>
    simpa [hphase] using hge

/- ### Claim theorems -/

/-- C2 (counterexample): the claim says `pause()` issued while Idle is
silently ignored with the state left completely unchanged; but the store's
`pause` action applies unconditionally, so pausing the initial (Idle) state
changes it to Paused. -/
theorem invalid_transition_cex :
    pause initialTimerState ≠ initialTimerState ∧
    (pause initialTimerState).timerMode = .PAUSED ∧
    initialTimerState.timerMode = .IDLE := by
  refine ⟨?_, rfl, rfl⟩
  intro h
  have := congrArg TimerState.timerMode h
  simp [pause, initialTimerState] at this

/-- C2 (amended): only the ActivityMachine's `pauseExercise`/`resumeExercise`
are guarded no-ops from non-permitted states; the PhaseClock's `start`,
`pause`, `resumeTimer` and the ActivityMachine's `launchExercise` apply their
transition unconditionally, overwriting the state even when issued from a
state that does not permit them.  None of these store actions emits an
event. -/
theorem invalid_transition_amended :
    (∀ s : ExerciseStoreState, s.exerciseState ≠ .RUNNING → pauseExercise s = s) ∧
    (∀ s : ExerciseStoreState, s.exerciseState ≠ .PAUSED → resumeExercise s = s) ∧
    (∀ (now dateNow : ℚ) (s : TimerState),
      (start now dateNow s).timerMode = .WORKING ∧ (start now dateNow s).elapsedTime = 0) ∧
    (∀ s : TimerState,
      (pause s).timerMode = .PAUSED ∧ (pause s).isRunning = false ∧
      (pause s).elapsedTime = s.elapsedTime) ∧
    (∀ (now : ℚ) (s : TimerState),
      (resumeTimer now s).isRunning = true ∧ (resumeTimer now s).startTimestamp = some now) ∧
    (∀ (k : ExerciseType) (s : ExerciseStoreState),
      (launchExercise k s).exerciseState = .LAUNCHING) := by
  refine ⟨?_, ?_, ?_, ?_, ?_, ?_⟩
  · intro s h; simp [pauseExercise, h]
  · intro s h; simp [resumeExercise, h]
  · intro now dateNow s; exact ⟨rfl, rfl⟩
  · intro s; exact ⟨rfl, rfl, rfl⟩
  · intro now s; exact ⟨rfl, rfl⟩
  · intro k s; rfl

/-- C2 (witness): the guarded no-ops at a concrete non-permitted state. -/
theorem invalid_transition_amended_witness :
    pauseExercise initialExerciseState = initialExerciseState ∧
    resumeExercise initialExerciseState = initialExerciseState :=
  ⟨invalid_transition_amended.1 initialExerciseState (by decide),
   invalid_transition_amended.2.1 initialExerciseState (by decide)⟩

/-- C6: `pauseTimer` freezes `elapsedTime` and changes only the mode and
running flag; while paused no tick changes anything (the RAF loop is not
active); `resumeTimer` re-anchors the timestamp without touching
`elapsedTime`, restores the mode from the phase, and the remaining time
right after resume equals the remaining time right before the pause. -/
theorem pause_freezes_elapsed (s : TimerState) (now : ℚ) (ts : List ℚ) :
    (pauseTimer s).elapsedTime = s.elapsedTime ∧
    (pauseTimer s).timerMode = .PAUSED ∧
    (pauseTimer s).isRunning = false ∧
    (pauseTimer s).currentPhase = s.currentPhase ∧
    (pauseTimer s).startTimestamp = s.startTimestamp ∧
    (pauseTimer s).sessionCount = s.sessionCount ∧
    (pauseTimer s).startTime = s.startTime ∧
    (pauseTimer s).duration = s.duration ∧
    runTicks ts (engineInit now (pauseTimer s)) = engineInit now (pauseTimer s) ∧
    (resumeTimer now (pauseTimer s)).elapsedTime = s.elapsedTime ∧
    (resumeTimer now (pauseTimer s)).startTimestamp = some now ∧
    (resumeTimer now (pauseTimer s)).timerMode =
      (if s.currentPhase = some .work then TimerMode.WORKING else .BREAK_REMINDER) ∧
    getRemainingTime (resumeTimer now (pauseTimer s)) = getRemainingTime s := by
  refine ⟨rfl, rfl, rfl, rfl, rfl, rfl, rfl, rfl, ?_, rfl, rfl, rfl, ?_⟩
  · exact runTicks_of_not_running rfl
  · simp [getRemainingTime, resumeTimer, pauseTimer]

/-- C8: a manual selection made while the manual window is open survives the
window expiry — the expiry callback sees selectionState SELECTED (not
MANUAL_OVERRIDE) and leaves the store untouched, so the selected exercise is
still the manual pick. -/
theorem manual_override_wins (s : ExerciseStoreState) (now : ℚ) (b : ExerciseType) (r : ℕ) :
    manualWindowExpiryCallback (now + manualSelectionWindowDuration) r
        (selectExercise (some b) (enableManualSelectionWindow now s)) =
      selectExercise (some b) (enableManualSelectionWindow now s) ∧
    (manualWindowExpiryCallback (now + manualSelectionWindowDuration) r
        (selectExercise (some b) (enableManualSelectionWindow now s))).currentExercise =
      some b := by
  constructor
  · simp [manualWindowExpiryCallback, selectExercise, enableManualSelectionWindow]
  · simp [manualWindowExpiryCallback, selectExercise, enableManualSelectionWindow]

/-- C9: a throwing subscriber is isolated: in the fan-out over any listener
sequence containing it, every other listener is still invoked with its own
outcome; the fan-out is total (one outcome per listener, no exception
escapes); and the engine state resulting from a tick is committed
independently of the subscribers' behaviour. -/
theorem subscriber_isolation :
    (∀ (pre post : List ℕ) (j : ℕ) (behavior : ℕ → Subscriber) (ev : TimerEvent)
        (msg : String), behavior j ev = .error msg →
      emitRun (pre ++ j :: post) behavior ev =
        emitRun pre behavior ev ++ (j, some msg) :: emitRun post behavior ev) ∧
    (∀ (ls : List ℕ) (behavior : ℕ → Subscriber) (ev : TimerEvent),
      (emitRun ls behavior ev).length = ls.length) ∧
    (∀ (now dateNow : ℚ) (e : EngineState) (em : EventEmitter)
        (behavior : ℕ → Subscriber),
      (tickWithFanout now dateNow e em behavior).1 = tick now dateNow e) := by
  refine ⟨?_, ?_, ?_⟩
  · intro pre post j behavior ev msg h
    induction pre with
    | nil => simp [emitRun, invokeCaught, h]
    | cons a pre ih => simp [emitRun, ih]
  · intro ls behavior ev
    induction ls with
    | nil => rfl
    | cons a ls ih => simp [emitRun, ih]
  · intro now dateNow e em behavior; rfl

/-- C9 (witness): listener 1 throws between listeners 0 and 2; both others
are still notified with their own outcomes. -/
theorem subscriber_isolation_witness :
    emitRun ([0] ++ 1 :: [2]) sampleBehavior sampleEvent =
      emitRun [0] sampleBehavior sampleEvent ++
        (1, some "fail") :: emitRun [2] sampleBehavior sampleEvent :=
  subscriber_isolation.1 [0] [2] 1 sampleBehavior sampleEvent "fail" rfl

/-- C10 (counterexample): with Set semantics a duplicate subscribe is a
no-op, so the unsubscribe returned by the second subscribe removes the
single registration and the listener count does not return to its
pre-subscribe value. -/
theorem unsubscribe_round_trip_cex :
    getListenerCount .WORK_COMPLETE
        (unsubscribe .WORK_COMPLETE 0
          (subscribe .WORK_COMPLETE 0 (subscribe .WORK_COMPLETE 0 emptyEmitter))) ≠
      getListenerCount .WORK_COMPLETE (subscribe .WORK_COMPLETE 0 emptyEmitter) := by
  decide

/-- C10 (amended): provided the listener is not already registered for the
type, subscribe-then-unsubscribe restores the listener list (hence the
count), and the listener is absent afterwards so a later emit of that type
does not invoke it; emitting an event whose type has no listeners notifies
nobody and raises no error. -/
theorem unsubscribe_round_trip :
    (∀ (em : EventEmitter) (t : TimerEventType) (i : ℕ), i ∉ em.listeners t →
      (unsubscribe t i (subscribe t i em)).listeners t = em.listeners t ∧
      getListenerCount t (unsubscribe t i (subscribe t i em)) = getListenerCount t em ∧
      i ∉ (unsubscribe t i (subscribe t i em)).listeners t) ∧
    (∀ (em : EventEmitter) (behavior : ℕ → Subscriber) (ev : TimerEvent),
      em.listeners ev.type = [] → emit em behavior ev = []) := by
  constructor
  · intro em t i h
    have hc : ¬ ((em.listeners t).contains i = true) := by
      simpa using h
    have hsub : (subscribe t i em).listeners t = em.listeners t ++ [i] := by
      simp only [subscribe, if_true]
      rw [if_neg hc]
    have hun : (unsubscribe t i (subscribe t i em)).listeners t = em.listeners t := by
      simp [unsubscribe, hsub, List.erase_append_right _ h]
    exact ⟨hun, by simp [getListenerCount, hun], fun hm => h (hun ▸ hm)⟩
  · intro em behavior ev h
    simp [emit, h, emitRun]

/-- C10 (witness): round trip at a concrete emitter, plus an emit with no
listeners. -/
theorem unsubscribe_round_trip_witness :
    (unsubscribe .WORK_COMPLETE 5 (subscribe .WORK_COMPLETE 5 emptyEmitter)).listeners
        .WORK_COMPLETE = emptyEmitter.listeners .WORK_COMPLETE ∧
    emit emptyEmitter (fun _ => okSub) sampleEvent = [] :=
  ⟨(unsubscribe_round_trip.1 emptyEmitter .WORK_COMPLETE 5 (by decide)).1,
   unsubscribe_round_trip.2 emptyEmitter (fun _ => okSub) sampleEvent rfl⟩

/-- An exercise store with a BALL_TRACKING exercise currently running. -/
def runningStore : ExerciseStoreState :=
  { currentExercise := some .BALL_TRACKING, exerciseState := .RUNNING,
    selectionState := .SELECTED, history := [], completions := [],
    preferences := DEFAULT_EXERCISE_PREFERENCES, manualSelectionEndTime := none }

/-- C3 (counterexample): the claim says a reset cancels both pending delayed
transitions so no previously scheduled callback changes state or history; but
the completion-delay callback scheduled by `completeExercise` before a
`resetExercise` still fires unguarded: it moves the machine off Idle to
Completed and appends the captured exercise to the history. -/
theorem reset_cancels_deferred_cex :
    (completeDelayCallback (completeExercise runningStore).2
        (resetExercise (completeExercise runningStore).1)).exerciseState ≠ .IDLE ∧
    (completeDelayCallback (completeExercise runningStore).2
        (resetExercise (completeExercise runningStore).1)).history ≠
      (resetExercise (completeExercise runningStore).1).history := by
  decide

/-- C3 (amended): `resetExercise` returns the machine to Idle from any state
but cancels neither setTimeout.  The launch-delay callback is guarded by a
LAUNCHING state check, so launching then immediately resetting then waiting
past the launch delay leaves the machine in Idle (never Running); the
completion-delay callback is unguarded, so fired after a reset it sets the
state to Completed and appends the captured exercise to the history. -/
theorem reset_cancels_deferred_amended :
    (∀ s : ExerciseStoreState, (resetExercise s).exerciseState = .IDLE) ∧
    (∀ s : ExerciseStoreState, s.exerciseState ≠ .LAUNCHING → launchDelayCallback s = s) ∧
    (∀ (k : ExerciseType) (s : ExerciseStoreState),
      (launchDelayCallback (resetExercise (launchExercise k s))).exerciseState = .IDLE) ∧
    (∀ (k : ExerciseType) (s : ExerciseStoreState), s.currentExercise = some k →
      (completeDelayCallback (completeExercise s).2
          (resetExercise (completeExercise s).1)).exerciseState = .COMPLETED ∧
      (completeDelayCallback (completeExercise s).2
          (resetExercise (completeExercise s).1)).history =
        sliceLast maxHistorySize (s.history ++ [k])) := by
  refine ⟨fun s => rfl, ?_, ?_, ?_⟩
  · intro s h; simp [launchDelayCallback, h]
  · intro k s; simp [launchDelayCallback, resetExercise, launchExercise]
  · intro k s h
    simp [completeExercise, completeDelayCallback, resetExercise, updateHistory, h]

/-- C3 (witness): the guarded launch callback is a no-op on a non-LAUNCHING
state, and the unguarded completion callback records the captured exercise
even after a reset. -/
theorem reset_cancels_deferred_witness :
    launchDelayCallback initialExerciseState = initialExerciseState ∧
    (completeDelayCallback (completeExercise runningStore).2
        (resetExercise (completeExercise runningStore).1)).history =
      [ExerciseType.BALL_TRACKING] := by
  refine ⟨reset_cancels_deferred_amended.2.1 initialExerciseState (by decide), ?_⟩
  have h2 := (reset_cancels_deferred_amended.2.2.2 .BALL_TRACKING runningStore rfl).2
  rw [h2]
  decide

/-- C5 (counterexample): the claim says a break-timeout force-completion adds
nothing to the history or the completions log and emits no completion record;
but on break end the orchestrator calls `completeExercise`, whose delayed
callback appends to the history, after which the COMPLETED effect tracks a
completion and emits EXERCISE_COMPLETE. -/
theorem break_timeout_cex :
    (handleExerciseComplete 20000 0
        ⟨completeDelayCallback (completeExercise runningStore).2
            (completeExercise runningStore).1, some 0, []⟩).store.history ≠
      runningStore.history ∧
    (handleExerciseComplete 20000 0
        ⟨completeDelayCallback (completeExercise runningStore).2
            (completeExercise runningStore).1, some 0, []⟩).store.completions ≠
      runningStore.completions ∧
    (handleExerciseComplete 20000 0
        ⟨completeDelayCallback (completeExercise runningStore).2
            (completeExercise runningStore).1, some 0, []⟩).events ≠ [] := by
  decide

/-- C5 (amended): when the break ends while the activity is still active, the
orchestrator runs the normal completion path, not a reset-without-record: the
activity's kind is appended to the selection history, and since a start time
was recorded, a completion entry is tracked and an EXERCISE_COMPLETE event is
emitted. -/
theorem break_timeout_amended (s : ExerciseStoreState) (k : ExerciseType)
    (st dateNow : ℚ) (sc : ℕ)
    (hact : isExerciseActive s = true) (hcur : s.currentExercise = some k) :
    (handleExerciseComplete dateNow sc
        ⟨completeDelayCallback (completeExercise s).2 (completeExercise s).1,
          some st, []⟩).store.exerciseState = .COMPLETED ∧
    (handleExerciseComplete dateNow sc
        ⟨completeDelayCallback (completeExercise s).2 (completeExercise s).1,
          some st, []⟩).store.history =
      sliceLast maxHistorySize (s.history ++ [k]) ∧
    (handleExerciseComplete dateNow sc
        ⟨completeDelayCallback (completeExercise s).2 (completeExercise s).1,
          some st, []⟩).store.completions =
      sliceLast maxCompletions
        (s.completions ++ [⟨k, dateNow, round ((dateNow - st) / 1000), sc⟩]) ∧
    (handleExerciseComplete dateNow sc
        ⟨completeDelayCallback (completeExercise s).2 (completeExercise s).1,
          some st, []⟩).events =
      [⟨.EXERCISE_COMPLETE, dateNow, ((round ((dateNow - st) / 1000) : ℤ) : ℚ), sc,
        "exercise", some k⟩] := by
  simp [handleExerciseComplete, completeDelayCallback, completeExercise,
    updateHistory, trackCompletion, hcur]

/-- C5 (witness): the amended behaviour at a concrete running exercise. -/
theorem break_timeout_amended_witness :
    (handleExerciseComplete 20000 0
        ⟨completeDelayCallback (completeExercise runningStore).2
            (completeExercise runningStore).1, some 0, []⟩).store.exerciseState =
      .COMPLETED := by
  exact (break_timeout_amended runningStore .BALL_TRACKING 0 20000 0
    (by decide) rfl).1

/-- C7 (counterexample): the claim bounds the history at the configured
selection depth H = 2; but after completing three activities the stored
history has length 3 — the store trims at STORAGE_CONFIG.maxHistorySize,
not at the selection depth. -/
theorem history_bound_cex :
    2 < (([ExerciseType.BALL_TRACKING, .NEAR_FAR_FOCUS, .BLINK_EXERCISE].foldl
        (fun st k => updateHistory k st) initialExerciseState)).history.length := by
  decide

lemma foldl_updateHistory :
    ∀ (l : List ExerciseType) (s : ExerciseStoreState),
      s.history.length ≤ maxHistorySize →
      (l.foldl (fun st k => updateHistory k st) s).history =
        sliceLast maxHistorySize (s.history ++ l) := by
  intro l
  induction l with
  | nil =>
    intro s hs
    simpa using (sliceLast_of_length_le hs).symm
  | cons k l ih =>
    intro s hs
    have hlen : (updateHistory k s).history.length ≤ maxHistorySize := by
      simp only [updateHistory, sliceLast, List.length_drop, List.length_append]
      omega
    rw [List.foldl_cons, ih _ hlen]
    have hh : (updateHistory k s).history = sliceLast maxHistorySize (s.history ++ [k]) := rfl
    rw [hh, sliceLast_absorb]
    congr 1
    simp

/-- C7 (amended): the history bound enforced by `updateHistory` is
STORAGE_CONFIG.maxHistorySize = 50, not the selection recency depth 2: a
single update never leaves more than 50 entries, and after 50 + k
completions starting from an empty history the history is exactly the most
recent 50 completions in completion order. -/
theorem history_bound_amended :
    (∀ (k : ExerciseType) (s : ExerciseStoreState),
      (updateHistory k s).history.length ≤ maxHistorySize) ∧
    (∀ (l : List ExerciseType) (s : ExerciseStoreState),
      s.history = [] → maxHistorySize ≤ l.length →
      (l.foldl (fun st k => updateHistory k st) s).history =
        sliceLast maxHistorySize l ∧
      (l.foldl (fun st k => updateHistory k st) s).history.length = maxHistorySize) := by
  constructor
  · intro k s
    simp only [updateHistory, sliceLast, List.length_drop, List.length_append]
    omega
  · intro l s h0 hl
    have h := foldl_updateHistory l s (by rw [h0]; simp)
    rw [h0] at h
    simp only [List.nil_append] at h
    refine ⟨h, ?_⟩
    rw [h, length_sliceLast]
    omega

/-- C7 (witness): after 51 completions from an empty history the history
holds exactly 50 entries. -/
theorem history_bound_witness :
    ((List.replicate 51 ExerciseType.BALL_TRACKING).foldl
        (fun st k => updateHistory k st) initialExerciseState).history.length =
      maxHistorySize :=
  (history_bound_amended.2 (List.replicate 51 .BALL_TRACKING) initialExerciseState rfl
    (by decide)).2

/-- C4: a tick that brings the accumulated elapsed time to the current
phase's target duration performs the phase-boundary transition: in the work
phase the clock moves to BreakReminder / break with elapsed reset to 0,
leaves sessionCount unchanged and emits WORK_COMPLETE then BREAK_START in
that order; in the break phase it moves to Idle, increments sessionCount by
exactly one, emits BREAK_COMPLETE and stops ticking (no further tick changes
anything). -/
theorem phase_boundary (e : EngineState) (now dateNow : ℚ)
    (hstop : e.stopped = false) (hrun : e.store.isRunning = true)
    (hanchor : e.store.startTimestamp ≠ none)
    (hdelta : UPDATE_INTERVAL ≤ now - e.lastUpdate) :
    (e.store.timerMode = .WORKING → e.store.currentPhase = some .work →
      WORK_DURATION ≤ e.accumulated + (now - e.lastUpdate) / 1000 →
      (tick now dateNow e).store.timerMode = .BREAK_REMINDER ∧
      (tick now dateNow e).store.currentPhase = some .brk ∧
      (tick now dateNow e).store.elapsedTime = 0 ∧
      (tick now dateNow e).store.sessionCount = e.store.sessionCount ∧
      (tick now dateNow e).accumulated = 0 ∧
      (tick now dateNow e).events = e.events ++
        [⟨.WORK_COMPLETE, dateNow, WORK_DURATION, e.store.sessionCount, "work", none⟩,
         ⟨.BREAK_START, dateNow, BREAK_DURATION, e.store.sessionCount, "break", none⟩] ∧
      (tick now dateNow e).stopped = false) ∧
    (e.store.timerMode = .BREAK_REMINDER → e.store.currentPhase = some .brk →
      BREAK_DURATION ≤ e.accumulated + (now - e.lastUpdate) / 1000 →
      (tick now dateNow e).store.timerMode = .IDLE ∧
      (tick now dateNow e).store.currentPhase = none ∧
      (tick now dateNow e).store.elapsedTime = 0 ∧
      (tick now dateNow e).store.isRunning = false ∧
      (tick now dateNow e).store.sessionCount = e.store.sessionCount + 1 ∧
      (tick now dateNow e).events = e.events ++
        [⟨.BREAK_COMPLETE, dateNow, BREAK_DURATION, e.store.sessionCount + 1, "break", none⟩] ∧
      (tick now dateNow e).stopped = true ∧
      (∀ (t2 d2 : ℚ), tick t2 d2 (tick now dateNow e) = tick now dateNow e)) := by
  constructor
  · intro hm hp hge
    rw [tick_run hstop hrun hanchor, updateTimer_work_boundary hdelta hm hp hge]
    refine ⟨?_, ?_, ?_, ?_, rfl, rfl, rfl⟩ <;>
      simp [transitionToBreak, updateElapsedTime, hm]
  · intro hm hp hge
    rw [tick_run hstop hrun hanchor, updateTimer_break_boundary hdelta hm hp hge]
    refine ⟨?_, ?_, ?_, ?_, ?_, rfl, rfl, ?_⟩
    · simp [transitionToIdle, updateElapsedTime, hm]
    · simp [transitionToIdle, updateElapsedTime, hm]
    · simp [transitionToIdle, updateElapsedTime, hm]
    · simp [transitionToIdle, updateElapsedTime, hm]
    · simp [transitionToIdle, updateElapsedTime, hm]
    · intro t2 d2; simp [tick]

/-- C4 (witness): a work-phase boundary at 1200 s moves the clock to
BreakReminder; a break-phase boundary at 20 s moves it to Idle with the
session count incremented. -/
theorem phase_boundary_witness :
    (tick 1200000 1200000 (engineInit 0 (startWork 0 0 initialTimerState))).store.timerMode =
      .BREAK_REMINDER ∧
    (tick 20000 20000 (engineInit 0 (startBreak 0 initialTimerState))).store.sessionCount = 1 := by
  constructor
  · exact ((phase_boundary (engineInit 0 (startWork 0 0 initialTimerState)) 1200000 1200000
      rfl rfl (by decide)
      (by norm_num [engineInit, startWork, UPDATE_INTERVAL])).1 rfl rfl
      (by norm_num [engineInit, startWork, WORK_DURATION])).1
  · have h := ((phase_boundary (engineInit 0 (startBreak 0 initialTimerState)) 20000 20000
      rfl rfl (by decide)
      (by norm_num [engineInit, startBreak, UPDATE_INTERVAL])).2 rfl rfl
      (by norm_num [engineInit, startBreak, BREAK_DURATION])).2.2.2.2.1
    simpa using h

/-- The invariant carried across work-phase ticks: the clock is in the work
phase and running, the store elapsed time mirrors the accumulator, and the
accumulator equals the time from the session start to the last anchor. -/
def EngineInvariant (t0 : ℚ) (e : EngineState) : Prop :=
  e.store.timerMode = .WORKING ∧ e.store.currentPhase = some .work ∧
  e.store.isRunning = true ∧ e.store.startTimestamp ≠ none ∧ e.stopped = false ∧
  e.store.elapsedTime = e.accumulated ∧ e.accumulated * 1000 = e.lastUpdate - t0

lemma runTicks_cons (t : ℚ) (ts : List ℚ) (e : EngineState) :
    runTicks (t :: ts) e = runTicks ts (tick t t e) := rfl

lemma tick_step (t0 t dn : ℚ) (e : EngineState) (hP : EngineInvariant t0 e)
    (hle : e.lastUpdate ≤ t) (hb : t - t0 < WORK_DURATION * 1000) :
    EngineInvariant t0 (tick t dn e) ∧
    e.lastUpdate ≤ (tick t dn e).lastUpdate ∧
    (tick t dn e).lastUpdate ≤ t ∧
    t - (tick t dn e).lastUpdate < UPDATE_INTERVAL := by
  obtain ⟨hm, hp, hr, ha, hs, he, hacc⟩ := hP
  rw [tick_run hs hr ha]
  by_cases hd : UPDATE_INTERVAL ≤ t - e.lastUpdate
  · have key : e.accumulated + (t - e.lastUpdate) / 1000 = (t - t0) / 1000 := by
      field_simp
      linarith
    have hlt : e.accumulated + (t - e.lastUpdate) / 1000 < WORK_DURATION := by
      rw [key, div_lt_iff (by norm_num : (0:ℚ) < 1000)]
      exact hb
    rw [updateTimer_noboundary hd hp hlt]
    refine ⟨⟨hm, hp, hr, ha, rfl, rfl, ?_⟩, hle, le_refl t, ?_⟩
    · rw [key]
      field_simp
    · simpa [UPDATE_INTERVAL] using (by norm_num : (0:ℚ) < 100)
  · rw [updateTimer_small hd]
    exact ⟨⟨hm, hp, hr, ha, hs, he, hacc⟩, le_refl _, hle, not_le.mp hd⟩

lemma runTicks_inv (t0 : ℚ) (ts : List ℚ) :
    ∀ (e : EngineState), EngineInvariant t0 e →
      List.Chain (· ≤ ·) e.lastUpdate ts →
      (∀ t ∈ ts, t - t0 < WORK_DURATION * 1000) →
      EngineInvariant t0 (runTicks ts e) ∧
      e.lastUpdate ≤ (runTicks ts e).lastUpdate ∧
      (runTicks ts e).lastUpdate ≤ ts.getLastD e.lastUpdate ∧
      ts.getLastD e.lastUpdate - (runTicks ts e).lastUpdate < UPDATE_INTERVAL := by
  induction ts with
  | nil =>
    intro e hP _ _
    refine ⟨hP, le_refl _, le_refl _, ?_⟩
    simpa [UPDATE_INTERVAL, runTicks] using (by norm_num : (0:ℚ) < 100)
  | cons t rest ih =>
    intro e hP hchain hb
    cases hchain with
    | cons hle hchain' =>
      have hbt : t - t0 < WORK_DURATION * 1000 := hb t (List.mem_cons_self _ _)
      obtain ⟨hP1, hge1, hle1, hlt1⟩ := tick_step t0 t t e hP hle hbt
      have hchain2 : List.Chain (· ≤ ·) (tick t t e).lastUpdate rest :=
        chain_le_of_le hle1 hchain'
      obtain ⟨hP2, hge2, hle2, hlt2⟩ :=
        ih (tick t t e) hP1 hchain2 (fun x hx => hb x (List.mem_cons_of_mem _ hx))
      rw [runTicks_cons]
      refine ⟨hP2, le_trans hge1 hge2, ?_, ?_⟩
      · rw [List.getLastD_cons]
        cases rest with
        | nil => simpa [runTicks] using le_trans hge2 hle1
        | cons r rest' =>
          have hsw : (r :: rest').getLastD (tick t t e).lastUpdate =
              (r :: rest').getLastD t := by
            rw [List.getLastD_cons, List.getLastD_cons]
          rw [← hsw]
          exact hle2
      · rw [List.getLastD_cons]
        cases rest with
        | nil => simpa [runTicks] using hlt1
        | cons r rest' =>
          have hsw : (r :: rest').getLastD (tick t t e).lastUpdate =
              (r :: rest').getLastD t := by
            rw [List.getLastD_cons, List.getLastD_cons]
          rw [← hsw]
          exact hlt2

/-- C1: drift compensation.  For any monotone sequence of tick instants
(the inter-tick gaps arbitrary: late, bursty or irregular) starting a work
session at `t0` and staying inside the work phase, the clock's elapsed time
after processing all ticks equals the real time span T (in seconds) up to
one tick interval: T − 0.1 < elapsed ≤ T. -/
theorem drift_compensation (ts : List ℚ) (t0 : ℚ)
    (hchain : List.Chain (· ≤ ·) t0 ts)
    (hb : ∀ t ∈ ts, t - t0 < WORK_DURATION * 1000) :
    (ts.getLastD t0 - t0) / 1000 - UPDATE_INTERVAL / 1000 <
      (runTicks ts (engineInit t0 (startWork t0 t0 initialTimerState))).store.elapsedTime ∧
    (runTicks ts (engineInit t0 (startWork t0 t0 initialTimerState))).store.elapsedTime ≤
      (ts.getLastD t0 - t0) / 1000 := by
  have hP0 : EngineInvariant t0 (engineInit t0 (startWork t0 t0 initialTimerState)) := by
    refine ⟨rfl, rfl, rfl, by simp [engineInit, startWork], rfl, rfl, by
      simp [engineInit, startWork]⟩
  have hchain0 : List.Chain (· ≤ ·)
      (engineInit t0 (startWork t0 t0 initialTimerState)).lastUpdate ts := hchain
  obtain ⟨⟨_, _, _, _, _, helapsed, hacc⟩, hge, hle, hlt⟩ :=
    runTicks_inv t0 ts (engineInit t0 (startWork t0 t0 initialTimerState)) hP0 hchain0 hb
  have h1000 : (0:ℚ) < 1000 := by norm_num
  have hproj : (engineInit t0 (startWork t0 t0 initialTimerState)).lastUpdate = t0 := rfl
  rw [hproj] at hge hle hlt
  have hE : (runTicks ts (engineInit t0 (startWork t0 t0 initialTimerState))).store.elapsedTime =
      ((runTicks ts (engineInit t0 (startWork t0 t0 initialTimerState))).lastUpdate - t0)
        / 1000 := by
    rw [helapsed]
    field_simp
    linarith [hacc]
  constructor
  · rw [hE, div_sub_div_same]
    rw [div_lt_div_iff_of_pos_right h1000]
    linarith [hlt]
  · rw [hE]
    rw [div_le_div_iff_of_pos_right h1000]
    linarith [hle]

/-- C1 (witness): ticks at 150 ms, 200 ms and 1000 ms after starting at 0 —
one delta below the throttle, one burst — end with elapsed in
(1 − 0.1, 1]. -/
theorem drift_compensation_witness :
    (1:ℚ) - UPDATE_INTERVAL / 1000 <
      (runTicks [150, 200, 1000]
        (engineInit 0 (startWork 0 0 initialTimerState))).store.elapsedTime ∧
    (runTicks [150, 200, 1000]
        (engineInit 0 (startWork 0 0 initialTimerState))).store.elapsedTime ≤ 1 := by
  have h := drift_compensation [150, 200, 1000] 0
    (List.Chain.cons (by norm_num) (List.Chain.cons (by norm_num)
      (List.Chain.cons (by norm_num) List.Chain.nil)))
    (by intro t ht; fin_cases ht <;> norm_num [WORK_DURATION])
  have hg : (([150, 200, 1000] : List ℚ).getLastD 0) = 1000 := rfl
  have hL : (([150, 200, 1000] : List ℚ).getLastD 0 - 0) / 1000 = 1 := by
    rw [hg]; norm_num
  rw [hL] at h
  exact h

end EyeCare
